import Mathlib

/-!
Shallow embedding of the chat channel client of this repository
(src/services/twitchIRC.ts, class TwitchIRC) together with proofs about
the claims of the specification.

Strings are modelled as Lean strings; the JavaScript string operations
used by the source (indexOf, substring, split, startsWith, includes,
toLowerCase, the regular expression match) are modelled over the
underlying character lists with the exact JavaScript semantics on the
relevant domain (ASCII input).  Machine side effects (WebSocket sends,
callback invocations, timer scheduling, socket construction and close)
are made explicit in an Effects record; the event-driven control flow of
the class is modelled by a step function over an explicit event type.
-/

namespace TwitchIRC

/-- Boolean prefix test on character lists (JS String.prototype.startsWith). -/
def isPrefixL : List Char → List Char → Bool
  | [], _ => true
  | _ :: _, [] => false
  | a :: la, b :: lb => a == b && isPrefixL la lb

/-- First index at which `needle` occurs in the remaining list, counting from `i`
(the scan of JS String.prototype.indexOf). -/
def indexOfAux (needle : List Char) : List Char → Nat → Option Nat
  | [], i => if isPrefixL needle [] then some i else none
  | c :: rest, i =>
    if isPrefixL needle (c :: rest) then some i else indexOfAux needle rest (i + 1)

/-- JS String.prototype.includes. -/
def includesL (hay needle : List Char) : Bool := (indexOfAux needle hay 0).isSome

/-- JS String.prototype.indexOf: the index of the first occurrence, or -1. -/
def jsIndexOf (hay needle : List Char) : Int :=
  match indexOfAux needle hay 0 with
  | some n => (n : Int)
  | none => -1

/-- JS String.prototype.split with a one-character separator. -/
def splitOnChar (c : Char) : List Char → List (List Char)
  | [] => [[]]
  | x :: xs =>
    if x == c then [] :: splitOnChar c xs
    else
      match splitOnChar c xs with
      | [] => [[x]]
      | h :: t => (x :: h) :: t

/-- JS String.prototype.split on the two-character separator CR LF. -/
def splitCRLF : List Char → List (List Char)
  | '\r' :: '\n' :: xs => [] :: splitCRLF xs
  | x :: xs =>
    match splitCRLF xs with
    | [] => [[x]]
    | h :: t => (x :: h) :: t
  | [] => [[]]

/-- Two-argument JS String.prototype.substring: negative arguments clamp to 0,
arguments above the length clamp to the length, and the two ends are swapped
when given in the wrong order. -/
def jsSubstring2 (l : List Char) (a b : Int) : List Char :=
  let n := l.length
  let a2 := min (max a 0).toNat n
  let b2 := min (max b 0).toNat n
  (l.drop (min a2 b2)).take (max a2 b2 - min a2 b2)

/-- JS String.prototype.toLowerCase on the ASCII domain used by the client. -/
def jsToLowerCase (s : String) : String := String.mk (s.data.map Char.toLower)

/-- Word character of the JS regular expression class backslash-w. -/
def isWordChar (c : Char) : Bool := c.isAlpha || c.isDigit || c == '_'

/-- Capture group of the first match of the JS regular expression
colon-capture-of-word-chars-bang used by parsePrivmsg to extract the login
from the IRC prefix.  At a colon the greedy word run must be nonempty and be
followed directly by a bang; otherwise the scan restarts one position later. -/
def prefixCapture : List Char → Option (List Char)
  | [] => none
  | c :: rest =>
    if c == ':' then
      let run := rest.takeWhile isWordChar
      if !run.isEmpty && (rest.drop run.length).head? == some '!' then some run
      else prefixCapture rest
    else prefixCapture rest

/-- ChatMessage record produced by the client (src/types/twitch is not part of
the core; the fields are those constructed in twitchIRC.ts).  The id field of
the source is the string msg-n for a monotonically increased numeric counter n;
the model keeps the numeric counter value n itself. -/
structure ChatMessage where
  id : Nat
  username : String
  message : String
  color : Option String
deriving DecidableEq

/-- WebSocket readyState values. The constant WebSocket.OPEN is `opened` here
(`open` is a reserved word in Lean). -/
inductive WSReady where
  | connecting
  | opened
  | closing
  | closed
deriving DecidableEq

/-- The mutable instance fields of class TwitchIRC.  `ws` is the WebSocket
handle (`none` when the field is null) together with its readyState;
`onMessage` and `onConnectionChange` record whether the callback field is
set (the callbacks themselves live outside the model, their invocations are
recorded in the Effects). -/
structure IRCState where
  ws : Option WSReady
  token : String
  username : String
  channel : Option String
  onMessage : Bool
  onConnectionChange : Bool
  reconnectAttempts : Nat
  messageId : Nat
  hasJoined : Bool
deriving DecidableEq

/-- Observable side effects of one step: lines passed to ws.send, ChatMessages
delivered through onMessage, booleans delivered through onConnectionChange,
number of reconnect timers scheduled by setTimeout, whether ws.close was
called, and number of WebSocket constructions. -/
structure Effects where
  sent : List String := []
  messages : List ChatMessage := []
  connEvents : List Bool := []
  scheduled : Nat := 0
  wsClosed : Bool := false
  wsOpened : Nat := 0
deriving DecidableEq

/-- Sequential composition of effects. -/
def Effects.app (a b : Effects) : Effects :=
  { sent := a.sent ++ b.sent
    messages := a.messages ++ b.messages
    connEvents := a.connEvents ++ b.connEvents
    scheduled := a.scheduled + b.scheduled
    wsClosed := a.wsClosed || b.wsClosed
    wsOpened := a.wsOpened + b.wsOpened }

/-- JS truthiness of the nullable channel field: null and the empty string are
falsy. -/
def chanTruthy : Option String → Bool
  | none => false
  | some s => !s.data.isEmpty

/-- The test `this.ws && this.ws.readyState === WebSocket.OPEN` of the source. -/
def wsOpenB (s : IRCState) : Bool :=
  match s.ws with
  | some WSReady.opened => true
  | _ => false

/-- Field maxReconnectAttempts of the class. -/
def maxReconnectAttempts : Nat := 5

/-- Constructor of class TwitchIRC: stores the token and the lower-cased
username; all other fields start at their initializers. -/
def newSession (token username : String) : IRCState :=
  { ws := none
    token := token
    username := jsToLowerCase username
    channel := none
    onMessage := false
    onConnectionChange := false
    reconnectAttempts := 0
    messageId := 0
    hasJoined := false }

/-- Method authenticate: when the socket is present and open, send the three
auth lines; otherwise do nothing. -/
def authenticate (s : IRCState) : Effects :=
  if wsOpenB s then
    { sent := ["PASS oauth:" ++ s.token, "NICK " ++ s.username,
               "CAP REQ :twitch.tv/tags twitch.tv/commands"] }
  else {}

/-- Method joinChannel: returns without sending when the ws field is null or
the channel field is falsy, else sends the JOIN line. -/
def joinChannel (s : IRCState) : IRCState × Effects :=
  if s.ws.isSome && chanTruthy s.channel then
    (s, { sent := ["JOIN #" ++ s.channel.getD ""] })
  else (s, {})

/-- Method attemptReconnect: give up once the attempt counter has reached the
maximum, else increment it and schedule one reconnect timer. -/
def attemptReconnect (s : IRCState) : IRCState × Effects :=
  if maxReconnectAttempts ≤ s.reconnectAttempts then (s, {})
  else ({ s with reconnectAttempts := s.reconnectAttempts + 1 }, { scheduled := 1 })

/-- Tag keys looked up by parsePrivmsg. -/
def colorKey : List Char := "color".data

/-- Tag key display-name. -/
def displayNameKey : List Char := "display-name".data

/-- One element of the tag list: `t.split('=')` viewed as a key and an optional
value, exactly as Object.fromEntries reads an entry array (index 0 and 1). -/
def tagEntry (t : List Char) : List Char × Option (List Char) :=
  let parts := splitOnChar '=' t
  (parts.headD [], parts.get? 1)

/-- The tag entry list of parsePrivmsg: characters between the leading at-sign
and the first space, split on semicolons, each split on the equals sign. -/
def tagPairs (lc : List Char) : List (List Char × Option (List Char)) :=
  let tagsEnd := jsIndexOf lc " ".data
  let tagsStr := jsSubstring2 lc 1 tagsEnd
  (splitOnChar ';' tagsStr).map tagEntry

/-- Lookup in the object built by Object.fromEntries: the last entry with the
given key wins; `none` when the key is absent. -/
def fromEntriesGet (ps : List (List Char × Option (List Char))) (k : List Char) :
    Option (Option (List Char)) :=
  (ps.reverse.find? (fun p => p.fst == k)).map (fun p => p.snd)

/-- Value of a tag key for a raw line: defined only when the line starts with
the at-sign, as in the source. -/
def tagValue (lc : List Char) (k : List Char) : Option (Option (List Char)) :=
  if isPrefixL "@".data lc then fromEntriesGet (tagPairs lc) k else none

/-- The coercion `tags[k] || undefined` of the source: an absent key, an entry
without a value, and an empty-string value all give undefined. -/
def jsTruthyTag : Option (Option (List Char)) → Option (List Char)
  | some (some (c :: cs)) => some (c :: cs)
  | _ => none

/-- Body extraction of parsePrivmsg: locate the PRIVMSG token, then the
space-colon separator after it; the body is everything after that separator.
Returns none (parse failure) when either is missing. -/
def extractBody (lc : List Char) : Option (List Char) :=
  match indexOfAux "PRIVMSG".data lc 0 with
  | none => none
  | some i =>
    let afterPrivmsg := lc.drop i
    match indexOfAux " :".data afterPrivmsg 0 with
    | none => none
    | some j => some (afterPrivmsg.drop (j + 2))

/-- Method parsePrivmsg on the character list of the line, threading the
messageId counter: the counter is pre-incremented exactly when a message is
constructed.  The username fallback chain of the source uses JS or-else on
strings; the tag value and the regex capture are never the empty string, so
the matches below are exact. -/
def parsePrivmsgL (mid : Nat) (lc : List Char) : Option ChatMessage × Nat :=
  let color := jsTruthyTag (tagValue lc colorKey)
  let displayName := jsTruthyTag (tagValue lc displayNameKey)
  match extractBody lc with
  | none => (none, mid)
  | some body =>
    let username :=
      match displayName with
      | some d => String.mk d
      | none =>
        match prefixCapture lc with
        | some u => String.mk u
        | none => "unknown"
    (some { id := mid + 1, username := username, message := String.mk body,
            color := color.map String.mk }, mid + 1)

/-- Method parsePrivmsg on a string. -/
def parsePrivmsg (mid : Nat) (line : String) : Option ChatMessage × Nat :=
  parsePrivmsgL mid line.data

/-- The PONG line of the source. -/
def pongMessage : String := "PONG :tmi.twitch.tv"

/-- One iteration of the line loop of handleMessage: PING first (optional-chained
send, then continue), then the 001 welcome guarded by the hasJoined flag, then
JOIN guarded by a truthy channel, then PRIVMSG parsing with optional-chained
message delivery. -/
def processLine (s : IRCState) (lc : List Char) : IRCState × Effects :=
  if isPrefixL "PING".data lc then
    (s, { sent := if s.ws.isSome then [pongMessage] else [] })
  else if includesL lc "001".data && !s.hasJoined then
    joinChannel { s with hasJoined := true }
  else if includesL lc "JOIN".data && chanTruthy s.channel then
    (s, { connEvents := if s.onConnectionChange then [true] else [] })
  else if includesL lc "PRIVMSG".data then
    match parsePrivmsgL s.messageId lc with
    | (some m, mid2) =>
      ({ s with messageId := mid2 }, { messages := if s.onMessage then [m] else [] })
    | (none, mid2) => ({ s with messageId := mid2 }, {})
  else (s, {})

/-- The line loop of handleMessage. -/
def processLines (s : IRCState) : List (List Char) → IRCState × Effects
  | [] => (s, {})
  | l :: ls =>
    let r1 := processLine s l
    let r2 := processLines r1.1 ls
    (r2.1, Effects.app r1.2 r2.2)

/-- Method handleMessage: split the transmission on CR LF, drop empty
segments, and process each line in order. -/
def handleMessage (s : IRCState) (data : String) : IRCState × Effects :=
  processLines s ((splitCRLF data.data).filter (fun l => !l.isEmpty))

/-- Method sendMessage: fail (false, no effect) when the ws field is null, the
socket is not open, or the channel field is falsy; otherwise send the PRIVMSG
line and, through the optional-chained callback, deliver the local echo with
the pre-incremented counter, the stored lowercase username and the fixed self
color. -/
def sendMessage (s : IRCState) (text : String) : Bool × IRCState × Effects :=
  if wsOpenB s && chanTruthy s.channel then
    let line := "PRIVMSG #" ++ s.channel.getD "" ++ " :" ++ text
    if s.onMessage then
      (true, { s with messageId := s.messageId + 1 },
       { sent := [line]
         messages := [{ id := s.messageId + 1, username := s.username,
                        message := text, color := some "#9147ff" }] })
    else (true, s, { sent := [line] })
  else (false, s, {})

/-- Body of method connect: store the lower-cased channel and the callbacks and
construct a fresh WebSocket (the old handle, if any, is replaced without being
closed).  The handlers installed on the socket are modelled as the events
below. -/
def connectFn (s : IRCState) (channel : String) (hasConnCb : Bool) :
    IRCState × Effects :=
  ({ s with channel := some (jsToLowerCase channel)
            onMessage := true
            onConnectionChange := hasConnCb
            ws := some WSReady.connecting },
   { wsOpened := 1 })

/-- External events driving the session: the public API calls, the WebSocket
handler invocations, and the firing of a scheduled reconnect timer. -/
inductive Ev where
  | apiConnect (channel : String) (hasConnCb : Bool)
  | wsOpen
  | wsMessage (data : String)
  | wsClose
  | timerFire
  | apiSend (text : String)
  | apiDisconnect
  | apiChangeChannel (channel : String)
deriving DecidableEq

/-- One transition of the session.
apiConnect is method connect; wsOpen is the onopen handler (readyState becomes
open, the attempt counter resets, authenticate runs); wsMessage is the
onmessage handler; wsClose is the onclose handler (readyState becomes closed,
onConnectionChange false, attemptReconnect); timerFire is the reconnect timer
callback (guarded by truthy channel and a set onMessage, it re-runs connect
with the stored values); apiSend is sendMessage with the boolean result
dropped; apiDisconnect is method disconnect; apiChangeChannel is method
changeChannel. -/
def step (s : IRCState) : Ev → IRCState × Effects
  | Ev.apiConnect ch cb => connectFn s ch cb
  | Ev.wsOpen =>
    let s1 := { s with ws := s.ws.map (fun _ => WSReady.opened), reconnectAttempts := 0 }
    (s1, authenticate s1)
  | Ev.wsMessage data => handleMessage s data
  | Ev.wsClose =>
    let s1 := { s with ws := s.ws.map (fun _ => WSReady.closed) }
    let eff0 : Effects := { connEvents := if s.onConnectionChange then [false] else [] }
    let r := attemptReconnect s1
    (r.1, Effects.app eff0 r.2)
  | Ev.timerFire =>
    if chanTruthy s.channel && s.onMessage then
      connectFn s (s.channel.getD "") s.onConnectionChange
    else (s, {})
  | Ev.apiSend text =>
    let r := sendMessage s text
    (r.2.1, r.2.2)
  | Ev.apiDisconnect =>
    ({ s with ws := none, channel := none, onMessage := false,
              onConnectionChange := false, hasJoined := false },
     { wsClosed := s.ws.isSome })
  | Ev.apiChangeChannel c =>
    let eff0 : Effects :=
      if chanTruthy s.channel && s.ws.isSome then { sent := ["PART #" ++ s.channel.getD ""] }
      else {}
    let r := joinChannel { s with channel := some (jsToLowerCase c) }
    (r.1, Effects.app eff0 r.2)

/-- A run of the session over a list of events, accumulating effects in order. -/
def runFrom (s : IRCState) : List Ev → IRCState × Effects
  | [] => (s, {})
  | e :: evs =>
    let r1 := step s e
    let r2 := runFrom r1.1 evs
    (r2.1, Effects.app r1.2 r2.2)

/-- Recognizer for the connect API event. -/
def isApiConnect : Ev → Bool
  | Ev.apiConnect _ _ => true
  | _ => false

/-- Lower-casing a string does not change whether it is empty. -/
lemma jsToLowerCase_isEmpty (s : String) :
    (jsToLowerCase s).data.isEmpty = s.data.isEmpty := by
  unfold jsToLowerCase
  cases s.data <;> rfl

/-- The line loop of handleMessage never touches the socket handle, the stored
channel, the callback fields, the reconnect counter, the username or the
token. -/
lemma processLine_frame (s : IRCState) (l : List Char) :
    (processLine s l).1.ws = s.ws ∧ (processLine s l).1.channel = s.channel ∧
    (processLine s l).1.onMessage = s.onMessage ∧
    (processLine s l).1.onConnectionChange = s.onConnectionChange ∧
    (processLine s l).1.reconnectAttempts = s.reconnectAttempts ∧
    (processLine s l).1.username = s.username ∧
    (processLine s l).1.token = s.token := by
  unfold processLine joinChannel
  repeat' split
  all_goals simp_all

/-- Frame property of the whole line loop. -/
lemma processLines_frame (ls : List (List Char)) (s : IRCState) :
    (processLines s ls).1.ws = s.ws ∧ (processLines s ls).1.channel = s.channel ∧
    (processLines s ls).1.onMessage = s.onMessage ∧
    (processLines s ls).1.onConnectionChange = s.onConnectionChange ∧
    (processLines s ls).1.reconnectAttempts = s.reconnectAttempts ∧
    (processLines s ls).1.username = s.username ∧
    (processLines s ls).1.token = s.token := by
  induction ls generalizing s with
  | nil => simp [processLines]
  | cons l ls ih =>
    obtain ⟨a1, a2, a3, a4, a5, a6, a7⟩ := processLine_frame s l
    obtain ⟨b1, b2, b3, b4, b5, b6, b7⟩ := ih (processLine s l).1
    unfold processLines
    exact ⟨b1.trans a1, b2.trans a2, b3.trans a3, b4.trans a4,
           b5.trans a5, b6.trans a6, b7.trans a7⟩

/-- parsePrivmsg either fails and leaves the counter alone, or produces one
message carrying the incremented counter. -/
lemma parsePrivmsgL_spec (mid : Nat) (lc : List Char) :
    parsePrivmsgL mid lc = (none, mid) ∨
    ∃ m : ChatMessage, parsePrivmsgL mid lc = (some m, mid + 1) ∧ m.id = mid + 1 := by
  unfold parsePrivmsgL
  cases extractBody lc with
  | none => exact Or.inl rfl
  | some body => exact Or.inr ⟨_, rfl, rfl⟩

/-- One line of the loop: the counter never decreases and every delivered
message has an id strictly above the old counter and at most the new one. -/
lemma processLine_messages (s : IRCState) (l : List Char) :
    s.messageId ≤ (processLine s l).1.messageId ∧
    ∀ m ∈ (processLine s l).2.messages,
      s.messageId < m.id ∧ m.id ≤ (processLine s l).1.messageId := by
  rcases parsePrivmsgL_spec s.messageId l with hp | ⟨m2, hp, hid⟩ <;>
    unfold processLine joinChannel <;> simp only [hp] <;> repeat' split
  all_goals simp_all

/-- The whole line loop: the counter never decreases and every delivered
message id lies strictly between the old and at most the new counter. -/
lemma processLines_messages (ls : List (List Char)) (s : IRCState) :
    s.messageId ≤ (processLines s ls).1.messageId ∧
    ∀ m ∈ (processLines s ls).2.messages,
      s.messageId < m.id ∧ m.id ≤ (processLines s ls).1.messageId := by
  induction ls generalizing s with
  | nil => simp [processLines]
  | cons l ls ih =>
    obtain ⟨h1, h2⟩ := processLine_messages s l
    obtain ⟨h3, h4⟩ := ih (processLine s l).1
    unfold processLines
    refine ⟨h1.trans h3, ?_⟩
    intro m hm
    simp only [Effects.app, List.mem_append] at hm
    rcases hm with hm | hm
    · obtain ⟨ha, hb⟩ := h2 m hm
      exact ⟨ha, hb.trans h3⟩
    · obtain ⟨ha, hb⟩ := h4 m hm
      exact ⟨lt_of_le_of_lt h1 ha, hb⟩

/-- Fields of attemptReconnect: only the attempt counter moves, and it never
decreases; no messages are delivered. -/
lemma attemptReconnect_fields (s : IRCState) :
    (attemptReconnect s).1.username = s.username ∧
    (attemptReconnect s).1.onMessage = s.onMessage ∧
    (attemptReconnect s).1.messageId = s.messageId ∧
    (attemptReconnect s).2.messages = [] ∧
    s.reconnectAttempts ≤ (attemptReconnect s).1.reconnectAttempts := by
  unfold attemptReconnect
  split <;> simp

/-- One step of the session: the counter never decreases and every delivered
message id lies strictly between the old and at most the new counter. -/
lemma step_messages (s : IRCState) (e : Ev) :
    s.messageId ≤ (step s e).1.messageId ∧
    ∀ m ∈ (step s e).2.messages,
      s.messageId < m.id ∧ m.id ≤ (step s e).1.messageId := by
  cases e with
  | wsMessage data => exact processLines_messages _ s
  | apiConnect ch cb => simp [step, connectFn]
  | wsOpen =>
    simp only [step, authenticate]
    split <;> simp
  | wsClose =>
    obtain ⟨h1, h2, h3, h4, h5⟩ := attemptReconnect_fields
      { s with ws := s.ws.map (fun _ => WSReady.closed) }
    simp only [step, Effects.app, h3, h4]
    simp
  | timerFire =>
    simp only [step]
    split <;> simp [connectFn]
  | apiSend text =>
    simp only [step, sendMessage]
    repeat' split
    all_goals simp_all
  | apiDisconnect => simp [step]
  | apiChangeChannel c =>
    simp only [step, joinChannel, Effects.app]
    repeat' split
    all_goals simp_all

/-- A run of the session: the counter never decreases and every delivered
message id lies strictly between the initial and at most the final counter. -/
lemma runFrom_messages (evs : List Ev) (s : IRCState) :
    s.messageId ≤ (runFrom s evs).1.messageId ∧
    ∀ m ∈ (runFrom s evs).2.messages,
      s.messageId < m.id ∧ m.id ≤ (runFrom s evs).1.messageId := by
  induction evs generalizing s with
  | nil => simp [runFrom]
  | cons e evs ih =>
    obtain ⟨h1, h2⟩ := step_messages s e
    obtain ⟨h3, h4⟩ := ih (step s e).1
    unfold runFrom
    refine ⟨h1.trans h3, ?_⟩
    intro m hm
    simp only [Effects.app, List.mem_append] at hm
    rcases hm with hm | hm
    · obtain ⟨ha, hb⟩ := h2 m hm
      exact ⟨ha, hb.trans h3⟩
    · obtain ⟨ha, hb⟩ := h4 m hm
      exact ⟨lt_of_le_of_lt h1 ha, hb⟩

/-- No step changes the stored username (it is fixed in the constructor). -/
lemma step_username (s : IRCState) (e : Ev) : (step s e).1.username = s.username := by
  cases e with
  | wsMessage data => exact (processLines_frame _ s).2.2.2.2.2.1
  | apiConnect ch cb => rfl
  | wsOpen => rfl
  | wsClose => exact (attemptReconnect_fields _).1
  | timerFire =>
    simp only [step]
    split <;> rfl
  | apiSend text =>
    simp only [step, sendMessage]
    repeat' split
    all_goals rfl
  | apiDisconnect => rfl
  | apiChangeChannel c =>
    simp only [step, joinChannel]
    repeat' split
    all_goals rfl

/-- No run changes the stored username. -/
lemma runFrom_username (evs : List Ev) (s : IRCState) :
    (runFrom s evs).1.username = s.username := by
  induction evs generalizing s with
  | nil => rfl
  | cons e evs ih =>
    unfold runFrom
    exact (ih (step s e).1).trans (step_username s e)

/-- Once the onMessage callback field is cleared, every event other than a
connect call leaves it cleared. -/
lemma step_onMessage (s : IRCState) (e : Ev) (hc : isApiConnect e = false)
    (h : s.onMessage = false) : (step s e).1.onMessage = false := by
  cases e with
  | apiConnect ch cb => simp [isApiConnect] at hc
  | wsMessage data => exact (processLines_frame _ s).2.2.1.trans h
  | wsOpen => exact h
  | wsClose => exact ((attemptReconnect_fields _).2.1).trans h
  | timerFire =>
    simp only [step]
    split
    · simp_all
    · exact h
  | apiSend text =>
    simp only [step, sendMessage]
    repeat' split
    all_goals exact h
  | apiDisconnect => rfl
  | apiChangeChannel c =>
    simp only [step, joinChannel]
    repeat' split
    all_goals exact h

/-- Once the onMessage callback field is cleared, any run without a connect
call leaves it cleared. -/
lemma runFrom_onMessage (evs : List Ev) (s : IRCState)
    (hc : ∀ e ∈ evs, isApiConnect e = false) (h : s.onMessage = false) :
    (runFrom s evs).1.onMessage = false := by
  induction evs generalizing s with
  | nil => exact h
  | cons e evs ih =>
    unfold runFrom
    exact ih (step s e).1 (fun x hx => hc x (List.mem_cons_of_mem e hx))
      (step_onMessage s e (hc e (List.mem_cons_self e evs)) h)

/-- Only the onopen handler can lower the reconnect counter. -/
lemma step_attempts (s : IRCState) (e : Ev) (he : e ≠ Ev.wsOpen) :
    s.reconnectAttempts ≤ (step s e).1.reconnectAttempts := by
  cases e with
  | wsOpen => exact absurd rfl he
  | wsMessage data => exact le_of_eq (processLines_frame _ s).2.2.2.2.1.symm
  | apiConnect ch cb => exact le_refl _
  | wsClose =>
    exact (attemptReconnect_fields { s with ws := s.ws.map (fun _ => WSReady.closed) }).2.2.2.2
  | timerFire =>
    simp only [step]
    split
    · exact le_refl _
    · exact le_refl _
  | apiSend text =>
    simp only [step, sendMessage]
    repeat' split
    all_goals exact le_refl _
  | apiDisconnect => exact le_refl _
  | apiChangeChannel c =>
    simp only [step, joinChannel]
    repeat' split
    all_goals exact le_refl _

/-- State of a session whose transport is open and channel stored but where
the 001 welcome has not yet arrived (hasJoined still false): the session is
Authenticating, not Joined. -/
def authState : IRCState :=
  { ws := some WSReady.opened
    token := "tok"
    username := "bob"
    channel := some "zelda"
    onMessage := true
    onConnectionChange := false
    reconnectAttempts := 0
    messageId := 0
    hasJoined := false }

/-- Claim C1 counterexample: in a state whose transport is open and channel
stored but where not even the auth acknowledgment has been received
(hasJoined is false, so the session is certainly not Joined), sendMessage
returns true, transmits the PRIVMSG command and delivers an echo — contrary
to the claim that every such call fails with no transmission and no echo. -/
theorem c1_counterexample :
    authState.hasJoined = false ∧
    (sendMessage authState "hi").1 = true ∧
    (sendMessage authState "hi").2.2.sent = ["PRIVMSG #zelda :hi"] ∧
    (sendMessage authState "hi").2.2.messages =
      [{ id := 1, username := "bob", message := "hi", color := some "#9147ff" }] := by
  decide

/-- Claim C1 as amended: sendMessage fails — false result, no transmitted
command, no echo, no state change — exactly under the guard the source
checks: the ws field null or the socket not open, or no (truthy) channel
stored.  Not being Joined does not by itself make it fail. -/
theorem c1_send_fail_guard (s : IRCState) (text : String)
    (h : wsOpenB s = false ∨ chanTruthy s.channel = false) :
    sendMessage s text = (false, s, {}) := by
  unfold sendMessage
  rcases h with h | h <;> simp [h]

/-- Witness for c1_send_fail_guard at a never-connected session. -/
theorem c1_send_fail_guard_witness :
    (wsOpenB (newSession "tok" "Bob") = false ∨
      chanTruthy (newSession "tok" "Bob").channel = false) ∧
    sendMessage (newSession "tok" "Bob") "hi" = (false, newSession "tok" "Bob", {}) :=
  ⟨Or.inl (by decide), c1_send_fail_guard (newSession "tok" "Bob") "hi" (Or.inl (by decide))⟩

/-- Welcome line carrying the 001 reply code. -/
def welcome001 : String := ":tmi.twitch.tv 001 bob :Welcome, GLHF!"

/-- Connect and first transport open. -/
def c2pre : List Ev := [Ev.apiConnect "Zelda" true, Ev.wsOpen]

/-- First connection including the welcome (which joins), then an unplanned
close, the firing of the scheduled reconnect timer, and the open of the new
transport (which authenticates again). -/
def c2reconn : List Ev :=
  c2pre ++ [Ev.wsMessage welcome001, Ev.wsClose, Ev.timerFire, Ev.wsOpen]

/-- Claim C2 (evidence for the code bug): on the first connection the first
001 line makes the session send JOIN, but after the automatic reconnect the
same first 001 line of the new connection does nothing — the state is
returned unchanged with empty effects, so JOIN is never sent again — because
connect never resets the hasJoined guard (only disconnect does). -/
theorem c2_reconnect_never_rejoins :
    (handleMessage (runFrom (newSession "tok" "Bob") c2pre).1 welcome001).2.sent
      = ["JOIN #zelda"] ∧
    (runFrom (newSession "tok" "Bob") c2reconn).1.ws = some WSReady.opened ∧
    (runFrom (newSession "tok" "Bob") c2reconn).1.channel = some "zelda" ∧
    (runFrom (newSession "tok" "Bob") c2reconn).1.hasJoined = true ∧
    handleMessage (runFrom (newSession "tok" "Bob") c2reconn).1 welcome001
      = ((runFrom (newSession "tok" "Bob") c2reconn).1, {}) := by
  exact ⟨by decide, by decide, by decide, by decide, by decide⟩

/-- Six consecutive unplanned closes with no successful open: after connect
and the one successful open, each close is followed by the firing of the
reconnect timer it scheduled (whose connection attempt closes again). -/
def c3trace : List Ev :=
  [Ev.apiConnect "zelda" true, Ev.wsOpen,
   Ev.wsClose, Ev.timerFire, Ev.wsClose, Ev.timerFire, Ev.wsClose, Ev.timerFire,
   Ev.wsClose, Ev.timerFire, Ev.wsClose, Ev.timerFire, Ev.wsClose]

/-- Claim C3: once the attempt counter has reached the maximum (5), a further
unplanned close schedules no reconnect, opens nothing, sends nothing and
leaves the counter alone — the session settles closed after the
connection-change callback; the counter is lowered only by a transport open;
and on the concrete trace of six consecutive closes with no intervening
successful open exactly 5 reconnects are scheduled, the counter ends at 5,
and a sixth reconnect is never scheduled. -/
theorem c3_reconnect_budget :
    (∀ s : IRCState, maxReconnectAttempts ≤ s.reconnectAttempts →
      step s Ev.wsClose =
        ({ s with ws := s.ws.map (fun _ => WSReady.closed) },
         { connEvents := if s.onConnectionChange then [false] else [] })) ∧
    (∀ (s : IRCState) (e : Ev),
      (step s e).1.reconnectAttempts < s.reconnectAttempts → e = Ev.wsOpen) ∧
    (runFrom (newSession "tok" "Bob") c3trace).2.scheduled = 5 ∧
    (runFrom (newSession "tok" "Bob") c3trace).1.reconnectAttempts = 5 ∧
    (step (runFrom (newSession "tok" "Bob") c3trace).1 Ev.wsClose).2.scheduled = 0 := by
  refine ⟨?_, ?_, by decide, by decide, by decide⟩
  · intro s h
    simp [step, attemptReconnect, Effects.app, h]
  · intro s e hlt
    by_contra hne
    exact absurd (step_attempts s e hne) (not_le.mpr hlt)

/-- The state after the six-close trace (attempt counter at the maximum). -/
def c3s5 : IRCState := (runFrom (newSession "tok" "Bob") c3trace).1

/-- Witness for the universally quantified part of c3_reconnect_budget. -/
theorem c3_witness :
    maxReconnectAttempts ≤ c3s5.reconnectAttempts ∧
    step c3s5 Ev.wsClose =
      ({ c3s5 with ws := c3s5.ws.map (fun _ => WSReady.closed) },
       { connEvents := if c3s5.onConnectionChange then [false] else [] }) :=
  ⟨by decide, c3_reconnect_budget.1 c3s5 (by decide)⟩

/-- Claim C4: after disconnect, whatever further events occur short of a new
connect call, a previously scheduled reconnect timer that fires opens no
socket and changes nothing: its liveness guard fails because disconnect
cleared the stored channel and the callbacks. -/
theorem c4_disconnect_cancels_reconnect (s : IRCState) (evs : List Ev)
    (hc : ∀ e ∈ evs, isApiConnect e = false) :
    step (runFrom (step s Ev.apiDisconnect).1 evs).1 Ev.timerFire =
      ((runFrom (step s Ev.apiDisconnect).1 evs).1, {}) := by
  have h0 : (step s Ev.apiDisconnect).1.onMessage = false := rfl
  have h1 := runFrom_onMessage evs (step s Ev.apiDisconnect).1 hc h0
  simp only [step] at h1 ⊢
  simp [h1]

/-- Witness for c4_disconnect_cancels_reconnect: disconnect during a pending
reconnect, followed by the close event of the torn-down socket and an
unrelated channel change; the timer then fires without opening anything. -/
theorem c4_witness :
    step (runFrom (step authState Ev.apiDisconnect).1
            [Ev.wsClose, Ev.apiChangeChannel "other"]).1 Ev.timerFire =
      ((runFrom (step authState Ev.apiDisconnect).1
          [Ev.wsClose, Ev.apiChangeChannel "other"]).1, {}) :=
  c4_disconnect_cancels_reconnect authState [Ev.wsClose, Ev.apiChangeChannel "other"]
    (by decide)

/-- Events reaching a Joined state with one prior inbound chat message
delivered: connect, open, welcome (join sent), join acknowledgment, one
PRIVMSG from another user. -/
def c5evs : List Ev :=
  [Ev.apiConnect "Zelda" true, Ev.wsOpen,
   Ev.wsMessage welcome001,
   Ev.wsMessage ":bob!bob@bob.tmi.twitch.tv JOIN #zelda",
   Ev.wsMessage "@display-name=Ann;color=#00FF00 :ann!ann@ann.tmi.twitch.tv PRIVMSG #zelda :hi bob"]

/-- Claim C5: in any reachable Joined state (transport open, channel stored,
callback installed, welcome seen), sendMessage transmits exactly the line
PRIVMSG hash-channel colon-text, returns true, bumps only the message
counter, and delivers exactly one echo whose username is the lower-cased
login given at construction, whose color is the fixed self color, and whose
id is strictly greater than the id of every message previously delivered in
the run. -/
theorem c5_send_while_joined (tok user : String) (evs : List Ev) (text c : String)
    (hws : (runFrom (newSession tok user) evs).1.ws = some WSReady.opened)
    (hch : (runFrom (newSession tok user) evs).1.channel = some c)
    (hc : c.data.isEmpty = false)
    (hcb : (runFrom (newSession tok user) evs).1.onMessage = true)
    (hj : (runFrom (newSession tok user) evs).1.hasJoined = true) :
    sendMessage (runFrom (newSession tok user) evs).1 text =
      (true,
       { (runFrom (newSession tok user) evs).1 with
           messageId := (runFrom (newSession tok user) evs).1.messageId + 1 },
       { sent := ["PRIVMSG #" ++ c ++ " :" ++ text]
         messages := [{ id := (runFrom (newSession tok user) evs).1.messageId + 1
                        username := jsToLowerCase user
                        message := text
                        color := some "#9147ff" }] }) ∧
    ∀ m ∈ (runFrom (newSession tok user) evs).2.messages,
      m.id < (runFrom (newSession tok user) evs).1.messageId + 1 := by
  constructor
  · have hopen : wsOpenB (runFrom (newSession tok user) evs).1 = true := by
      unfold wsOpenB
      rw [hws]
    have huser : (runFrom (newSession tok user) evs).1.username = jsToLowerCase user :=
      runFrom_username evs (newSession tok user)
    unfold sendMessage
    simp [hopen, hch, chanTruthy, hc, hcb, huser]
  · intro m hm
    have hb := (runFrom_messages evs (newSession tok user)).2 m hm
    omega

/-- Witness for c5_send_while_joined at the concrete joined run. -/
theorem c5_witness :
    sendMessage (runFrom (newSession "tok" "Bob") c5evs).1 "hello" =
      (true,
       { (runFrom (newSession "tok" "Bob") c5evs).1 with
           messageId := (runFrom (newSession "tok" "Bob") c5evs).1.messageId + 1 },
       { sent := ["PRIVMSG #" ++ "zelda" ++ " :" ++ "hello"]
         messages := [{ id := (runFrom (newSession "tok" "Bob") c5evs).1.messageId + 1
                        username := jsToLowerCase "Bob"
                        message := "hello"
                        color := some "#9147ff" }] }) :=
  (c5_send_while_joined "tok" "Bob" c5evs "hello" "zelda" (by decide) (by decide)
    (by decide) (by decide) (by decide)).1

/-- Claim C6: the tagged example line parses to username Alice, color
hex-FF0000 and text gg wp; the same line without the display-name tag parses
to username alice taken from the prefix; and the line with no tags and no
prefix parses to username unknown — the username precedence is display-name
tag, then prefix login, then the literal unknown. -/
theorem c6_username_precedence :
    parsePrivmsg 0
        "@display-name=Alice;color=#FF0000 :alice!alice@alice.tmi.twitch.tv PRIVMSG #zelda :gg wp"
      = (some { id := 1, username := "Alice", message := "gg wp", color := some "#FF0000" }, 1) ∧
    (parsePrivmsg 0
        "@color=#FF0000 :alice!alice@alice.tmi.twitch.tv PRIVMSG #zelda :gg wp").1
      = some { id := 1, username := "alice", message := "gg wp", color := some "#FF0000" } ∧
    (parsePrivmsg 0 "PRIVMSG #zelda :gg wp").1
      = some { id := 1, username := "unknown", message := "gg wp", color := none } := by
  decide

/-- Claim C7: any inbound line beginning with PING, in any session state that
has a socket handle, produces exactly one PONG command and nothing else: no
state change, no callback, no timer — even if the line also contains 001,
JOIN or PRIVMSG. -/
theorem c7_ping_only_pong (s : IRCState) (lc : List Char)
    (hping : isPrefixL "PING".data lc = true) (hws : s.ws.isSome = true) :
    processLine s lc = (s, { sent := [pongMessage] }) := by
  unfold processLine
  simp [hping, hws]

/-- Witness for c7_ping_only_pong on a PING line that also contains the other
command tokens. -/
theorem c7_witness :
    isPrefixL "PING".data "PING 001 JOIN PRIVMSG :tmi.twitch.tv".data = true ∧
    authState.ws.isSome = true ∧
    processLine authState "PING 001 JOIN PRIVMSG :tmi.twitch.tv".data
      = (authState, { sent := [pongMessage] }) :=
  ⟨by decide, by decide,
   c7_ping_only_pong authState "PING 001 JOIN PRIVMSG :tmi.twitch.tv".data
     (by decide) (by decide)⟩

/-- Claim C8: changeChannel while joined to a channel sends PART for the old
channel and then JOIN for the lower-cased new one, in that order, over the
same transport: the socket handle is untouched (nothing closed, nothing
opened) and no authentication command is sent. -/
theorem c8_change_channel_soft_switch (s : IRCState) (old newCh : String)
    (hch : s.channel = some old) (hold : old.data.isEmpty = false)
    (hws : s.ws = some WSReady.opened) (hnew : newCh.data.isEmpty = false) :
    step s (Ev.apiChangeChannel newCh) =
      ({ s with channel := some (jsToLowerCase newCh) },
       { sent := ["PART #" ++ old, "JOIN #" ++ jsToLowerCase newCh] }) := by
  have hlow : (jsToLowerCase newCh).data.isEmpty = false :=
    (jsToLowerCase_isEmpty newCh).trans hnew
  simp [step, joinChannel, hch, hws, chanTruthy, hold, hlow, Effects.app]

/-- Witness for c8_change_channel_soft_switch. -/
theorem c8_witness :
    step authState (Ev.apiChangeChannel "NewChan") =
      ({ authState with channel := some (jsToLowerCase "NewChan") },
       { sent := ["PART #" ++ "zelda", "JOIN #" ++ jsToLowerCase "NewChan"] }) :=
  c8_change_channel_soft_switch authState "zelda" "NewChan"
    (by decide) (by decide) (by decide) (by decide)

/-- Claim C9: disconnect, from every state including a never-connected one,
closes the socket exactly when one is present, clears the stored channel,
both callbacks and the auth-has-fired guard, leaves the reconnect counter and
the message counter unchanged, and is idempotent: a second disconnect returns
the same state with no effects. -/
theorem c9_disconnect_idempotent (s : IRCState) :
    step s Ev.apiDisconnect =
      ({ s with ws := none, channel := none, onMessage := false,
                onConnectionChange := false, hasJoined := false },
       { wsClosed := s.ws.isSome }) ∧
    (step s Ev.apiDisconnect).1.reconnectAttempts = s.reconnectAttempts ∧
    (step s Ev.apiDisconnect).1.messageId = s.messageId ∧
    step (step s Ev.apiDisconnect).1 Ev.apiDisconnect
      = ((step s Ev.apiDisconnect).1, {}) :=
  ⟨rfl, rfl, rfl, rfl⟩

/-- Claim C10: whenever a PRIVMSG line parses successfully, a color tag whose
effective value is the empty string leaves the ChatMessage with no color, and
a display-name tag whose effective value is the empty string makes the
username fall back to the prefix login, or to the literal unknown when no
prefix matches — exactly as if the tag were absent. -/
theorem c10_empty_tag_as_absent (mid : Nat) (line : String) (m : ChatMessage)
    (mid2 : Nat) (h : parsePrivmsg mid line = (some m, mid2)) :
    (tagValue line.data colorKey = some (some []) → m.color = none) ∧
    (tagValue line.data displayNameKey = some (some []) →
      m.username = (match prefixCapture line.data with
                    | some u => String.mk u
                    | none => "unknown")) := by
  unfold parsePrivmsg parsePrivmsgL at h
  cases hb : extractBody line.data with
  | none =>
    rw [hb] at h
    exact absurd h (by simp)
  | some body =>
    rw [hb] at h
    simp only [Prod.mk.injEq, Option.some.injEq] at h
    obtain ⟨hm, hmid⟩ := h
    subst hm
    constructor
    · intro hc
      show (jsTruthyTag (tagValue line.data colorKey)).map String.mk = none
      rw [hc]
      rfl
    · intro hd
      show (match jsTruthyTag (tagValue line.data displayNameKey) with
            | some d => String.mk d
            | none =>
              match prefixCapture line.data with
              | some u => String.mk u
              | none => "unknown")
        = (match prefixCapture line.data with
           | some u => String.mk u
           | none => "unknown")
      rw [hd]
      rfl

/-- PRIVMSG line whose color and display-name tags are present with empty
values. -/
def c10line : String := "@display-name=;color= :alice!alice@a PRIVMSG #z :hi"

/-- Witness for c10_empty_tag_as_absent on the empty-tag line. -/
theorem c10_witness :
    tagValue c10line.data colorKey = some (some []) ∧
    tagValue c10line.data displayNameKey = some (some []) ∧
    parsePrivmsg 0 c10line
      = (some { id := 1, username := "alice", message := "hi", color := none }, 1) ∧
    ({ id := 1, username := "alice", message := "hi", color := none } : ChatMessage).color
      = none ∧
    ({ id := 1, username := "alice", message := "hi", color := none } : ChatMessage).username
      = (match prefixCapture c10line.data with
         | some u => String.mk u
         | none => "unknown") :=
  ⟨by decide, by decide, by decide,
   (c10_empty_tag_as_absent 0 c10line
      { id := 1, username := "alice", message := "hi", color := none } 1 (by decide)).1
     (by decide),
   (c10_empty_tag_as_absent 0 c10line
      { id := 1, username := "alice", message := "hi", color := none } 1 (by decide)).2
     (by decide)⟩

end TwitchIRC
